import Mathlib

/-!
Verification of the GTM AI Operations Hub repository.

Shallow embedding of the repository's components:
  * `src/agent/agent.py`      — the `GTMOpsAgent` LLM orchestration agent
  * `src/agent/prompts.py`    — prompt builders and fixed mock payloads
  * `src/agent/relevance_handler.py` — the Relevance AI workforce client
  * `src/webapp/app.py`       — the intake / backlog / status-update handlers
  * `src/data/seed.py`        — schema creation and the one-time seed loader

External effects are made explicit: wall-clock latency is a parameter,
HTTP traffic is an oracle argument, and row identifiers generated from
UUIDs are parameters.  Python values that can be arbitrary JSON are
modelled by the `Json` type below; Python exceptions escaping a modelled
operation are `Except.error` values.
-/

/-- JSON values as Python's `json` module produces them.  `num` is a JSON
integer (Python `int`), `flt` a JSON number with a fraction or exponent
(Python `float`).  Objects are ordered association lists, matching the
insertion-ordered dictionaries `json.loads` builds. -/
inductive Json where
  | null : Json
  | bool (b : Bool) : Json
  | num (n : Int) : Json
  | flt (q : Rat) : Json
  | str (s : String) : Json
  | arr (elems : List Json) : Json
  | obj (fields : List (String × Json)) : Json

/-- Python truthiness of a JSON value (`if parsed:`): `None`, `False`,
zero, the empty string, the empty list and the empty dict are falsy. -/
def jsonTruthy : Json → Bool
  | .null => false
  | .bool b => b
  | .num n => n != 0
  | .flt q => q != 0
  | .str s => s != ""
  | .arr es => !es.isEmpty
  | .obj fs => !fs.isEmpty

/-- Dictionary lookup, `d.get(k)` / `k in d` on a Python dict. -/
def jlookup (fields : List (String × Json)) (key : String) : Option Json :=
  match fields.find? (fun p => p.1 == key) with
  | some p => some p.2
  | none => none

/-- Python `d.get(k, default)`. -/
def jgetD (fields : List (String × Json)) (key : String) (dflt : Json) : Json :=
  match jlookup fields key with
  | some v => v
  | none => dflt

/-- Model of `d[k] = v` on a Python dict: replace the value in place if the key is
present, otherwise append the new binding at the end. -/
def dictSet (fields : List (String × Json)) (key : String) (v : Json) :
    List (String × Json) :=
  if fields.any (fun p => p.1 == key) then
    fields.map (fun p => if p.1 == key then (key, v) else p)
  else fields ++ [(key, v)]

/-- The Python exceptions our embedded operations can raise. -/
inductive PyErr where
  | typeError : PyErr
deriving DecidableEq

/-- Python `result[k] = v` on an arbitrary value: succeeds on a dict,
raises `TypeError` on every other JSON value (list, int, str, ...). -/
def setItem (v : Json) (key : String) (x : Json) : Except PyErr Json :=
  match v with
  | .obj fields => .ok (.obj (dictSet fields key x))
  | _ => .error .typeError

-- ───────────────────────── JSON text parsing ─────────────────────────
-- A model of Python's `json.loads` on the grammar the agent's responses
-- use: objects, arrays, double-quoted strings with the standard escapes,
-- integers and fraction/exponent numbers, `true`/`false`/`null`, with
-- JSON whitespace, and rejecting any trailing garbage.

/-- JSON whitespace (the characters `json.loads` skips between tokens). -/
def isJsonWs (c : Char) : Bool :=
  [' ', '\t', '\n', '\r'].contains c

/-- Skip leading JSON whitespace. -/
def skipWs : List Char → List Char
  | [] => []
  | c :: cs => if isJsonWs c then skipWs cs else c :: cs

/-- The two-character escapes of a JSON string literal, as
escape-letter / decoded-character pairs. -/
def escapePairs : List (Char × Char) :=
  [('"', '"'), ('\\', '\\'), ('/', '/'), ('b', Char.ofNat 8),
   ('f', Char.ofNat 12), ('n', '\n'), ('r', '\r'), ('t', '\t')]

/-- Decode one string-literal escape character. -/
def unescapeChar (c : Char) : Option Char :=
  (escapePairs.find? (fun p => p.1 == c)).map (fun p => p.2)

/-- Value of a hexadecimal digit. -/
def hexVal (c : Char) : Option Nat :=
  if '0' ≤ c ∧ c ≤ '9' then some (c.toNat - '0'.toNat)
  else if 'a' ≤ c ∧ c ≤ 'f' then some (c.toNat - 'a'.toNat + 10)
  else if 'A' ≤ c ∧ c ≤ 'F' then some (c.toNat - 'A'.toNat + 10)
  else none

/-- Parse the body of a string literal after the opening quote; raw
control characters are rejected as in strict-mode `json.loads`. -/
def parseStringBody : List Char → List Char → Option (String × List Char)
  | acc, '"' :: rest => some (String.mk acc.reverse, rest)
  | acc, '\\' :: 'u' :: a :: b :: c :: d :: rest =>
      match hexVal a, hexVal b, hexVal c, hexVal d with
      | some x, some y, some z, some w =>
          let n := ((x * 16 + y) * 16 + z) * 16 + w
          if n.isValidChar then parseStringBody (Char.ofNat n :: acc) rest
          else none
      | _, _, _, _ => none
  | acc, '\\' :: e :: rest =>
      match unescapeChar e with
      | some c => parseStringBody (c :: acc) rest
      | none => none
  | _, ['\\'] => none
  | acc, c :: rest => if c.toNat < 32 then none else parseStringBody (c :: acc) rest
  | _, [] => none

/-- Digits prefix of a character list, with the remainder. -/
def takeDigits (cs : List Char) : List Char × List Char :=
  match cs with
  | c :: rest =>
      if c.isDigit then
        let (ds, r) := takeDigits rest
        (c :: ds, r)
      else ([], c :: rest)
  | [] => ([], [])

/-- Numeric value of a digit list. -/
def digitsVal (ds : List Char) : Nat :=
  ds.foldl (fun acc c => acc * 10 + (c.toNat - '0'.toNat)) 0

/-- Parse a JSON number per RFC 8259 (as `json.loads` does): optional
minus, integer part without leading zeros, optional fraction, optional
exponent.  Plain integers become `Json.num`, the rest `Json.flt`. -/
def parseNumber (cs : List Char) : Option (Json × List Char) :=
  let (neg, cs₁) := match cs with
    | '-' :: r => (true, r)
    | _ => (false, cs)
  match cs₁ with
  | c :: _ =>
    if ¬ c.isDigit then none
    else
      let (intDs, cs₂) :=
        if c == '0' then (['0'], cs₁.tail)
        else takeDigits cs₁
      let i : Nat := digitsVal intDs
      -- leading-zero check: "0" may not be followed by more digits
      if c == '0' && (match cs₂ with | d :: _ => d.isDigit | [] => false) then none
      else
        let (fracDs, cs₃, fracOk) :=
          match cs₂ with
          | '.' :: r =>
              let (ds, r') := takeDigits r
              (ds, r', !ds.isEmpty)
          | _ => ([], cs₂, true)
        if ¬ fracOk then none
        else
          match cs₃ with
          | e :: r =>
            if e == 'e' ∨ e == 'E' then
              let (eneg, r₁) := match r with
                | '-' :: r' => (true, r')
                | '+' :: r' => (false, r')
                | _ => (false, r)
              let (expDs, r₂) := takeDigits r₁
              if expDs.isEmpty then none
              else
                let base : Rat := (i : Rat) + (digitsVal fracDs : Rat) / (10 : Rat) ^ fracDs.length
                let scaled : Rat :=
                  if eneg then base / (10 : Rat) ^ digitsVal expDs
                  else base * (10 : Rat) ^ digitsVal expDs
                some (.flt (if neg then -scaled else scaled), r₂)
            else
              if fracDs.isEmpty then
                some (.num (if neg then -(i : Int) else (i : Int)), cs₃)
              else
                let q : Rat := (i : Rat) + (digitsVal fracDs : Rat) / (10 : Rat) ^ fracDs.length
                some (.flt (if neg then -q else q), cs₃)
          | [] =>
              if fracDs.isEmpty then
                some (.num (if neg then -(i : Int) else (i : Int)), [])
              else
                let q : Rat := (i : Rat) + (digitsVal fracDs : Rat) / (10 : Rat) ^ fracDs.length
                some (.flt (if neg then -q else q), [])
  | [] => none

mutual

/-- Parse one JSON value (fuel-indexed recursive descent). -/
def parseValue : Nat → List Char → Option (Json × List Char)
  | 0, _ => none
  | _ + 1, [] => none
  | fuel + 1, c :: rest =>
      if c == '{' then
        match skipWs rest with
        | '}' :: r => some (.obj [], r)
        | other => parseMembers fuel [] other
      else if c == '[' then
        match skipWs rest with
        | ']' :: r => some (.arr [], r)
        | other => parseElems fuel [] other
      else if c == '"' then
        match parseStringBody [] rest with
        | some (s, r) => some (.str s, r)
        | none => none
      else if c == 't' then
        match rest with
        | 'r' :: 'u' :: 'e' :: r => some (.bool true, r)
        | _ => none
      else if c == 'f' then
        match rest with
        | 'a' :: 'l' :: 's' :: 'e' :: r => some (.bool false, r)
        | _ => none
      else if c == 'n' then
        match rest with
        | 'u' :: 'l' :: 'l' :: r => some (.null, r)
        | _ => none
      else parseNumber (c :: rest)

/-- One `"key": value` member, then either `,` and more or `}`. -/
def parseMembers : Nat → List (String × Json) → List Char → Option (Json × List Char)
  | 0, _, _ => none
  | fuel + 1, acc, cs =>
      match cs with
      | '"' :: r =>
        match parseStringBody [] r with
        | some (k, r₁) =>
          match skipWs r₁ with
          | ':' :: r₂ =>
            match parseValue fuel (skipWs r₂) with
            | some (v, r₃) =>
              match skipWs r₃ with
              | ',' :: r₄ => parseMembers fuel (acc ++ [(k, v)]) (skipWs r₄)
              | '}' :: r₄ => some (.obj (acc ++ [(k, v)]), r₄)
              | _ => none
            | none => none
          | _ => none
        | none => none
      | _ => none

/-- One element, then either `,` and more or `]`. -/
def parseElems : Nat → List Json → List Char → Option (Json × List Char)
  | 0, _, _ => none
  | fuel + 1, acc, cs =>
      match parseValue fuel cs with
      | some (v, r) =>
        match skipWs r with
        | ',' :: r₁ => parseElems fuel (acc ++ [v]) (skipWs r₁)
        | ']' :: r₁ => some (.arr (acc ++ [v]), r₁)
        | _ => none
      | none => none

end

/-- Model of `json.loads` on a character list: parse one value surrounded only by
whitespace; anything else fails (Python raises `JSONDecodeError`, which
every caller in the agent catches, so failure is modelled as `none`). -/
def json_loads_list (cs : List Char) : Option Json :=
  match parseValue (cs.length + 1) (skipWs cs) with
  | some (v, rest) => if (skipWs rest).isEmpty then some v else none
  | none => none

/-- Model of `json.loads` on a string. -/
def json_loads (s : String) : Option Json :=
  json_loads_list s.toList

-- ───────────────── Python string helpers (char-list level) ─────────────────

/-- The ASCII whitespace characters Python's `str.strip` removes. -/
def pyIsWs (c : Char) : Bool :=
  [' ', '\t', '\n', '\r', Char.ofNat 11, Char.ofNat 12].contains c

/-- Drop leading Python whitespace. -/
def dropWhileWs : List Char → List Char
  | [] => []
  | c :: cs => if pyIsWs c then dropWhileWs cs else c :: cs

/-- Python `s.strip()`: remove leading and trailing whitespace. -/
def pyStripChars (cs : List Char) : List Char :=
  (dropWhileWs (dropWhileWs cs).reverse).reverse

/-- Python `s.strip()` at string level. -/
def pyStrip (s : String) : String :=
  String.mk (pyStripChars s.toList)

/-- The three-backtick markdown fence marker. -/
def fenceMarker : List Char := [Char.ofNat 96, Char.ofNat 96, Char.ofNat 96]

/-- Python `s.startswith("...")` for the fence marker. -/
def startsWithFence (cs : List Char) : Bool :=
  cs.take 3 == fenceMarker

/-- Python `s.split("\n")`. -/
def splitLines : List Char → List (List Char)
  | [] => [[]]
  | c :: rest =>
      if c == '\n' then [] :: splitLines rest
      else
        match splitLines rest with
        | l :: ls => (c :: l) :: ls
        | [] => [[c]]

/-- Python `"\n".join(lines)`. -/
def joinLines : List (List Char) → List Char
  | [] => []
  | [l] => l
  | l :: ls => l ++ '\n' :: joinLines ls

/-- The fence-stripping step of `GTMOpsAgent._parse_json` (agent.py lines
78-82): if the stripped text begins with a code fence, drop every line
that itself begins (after stripping) with a fence marker. -/
def stripFences (cs : List Char) : List Char :=
  if startsWithFence cs then
    joinLines ((splitLines cs).filter (fun l => !startsWithFence (pyStripChars l)))
  else cs

/-- Python `s.find(c)`: index of the first occurrence, `-1` if absent. -/
def pyFind (cs : List Char) (c : Char) : Int :=
  match cs.findIdx? (· == c) with
  | some i => (i : Int)
  | none => -1

/-- Python `s.rfind(c)`: index of the last occurrence, `-1` if absent. -/
def pyRFind (cs : List Char) (c : Char) : Int :=
  match cs.reverse.findIdx? (· == c) with
  | some i => ((cs.length - 1 - i : Nat) : Int)
  | none => -1

/-- The second parse attempt of `GTMOpsAgent._parse_json` (agent.py lines
86-93): take the substring from the first `{` to the last `}` inclusive
and try to parse it; `none` if the bounds are missing or the parse fails
(the inner `except ... pass`). -/
def braceExtract (cleaned : List Char) : Option Json :=
  let start := pyFind cleaned (Char.ofNat 123)
  let stop := pyRFind cleaned (Char.ofNat 125) + 1
  if 0 ≤ start ∧ start < stop then
    json_loads_list ((cleaned.drop start.toNat).take (stop - start).toNat)
  else none

/-- Model of `GTMOpsAgent._parse_json` (agent.py lines 73-94): `None` (or empty)
input gives no result; otherwise strip, remove fence lines, try a direct
parse, then the first-`{`-to-last-`}` substring; never raises. -/
def _parse_json (text : Option String) : Option Json :=
  match text with
  | none => none
  | some t =>
    if t.toList.isEmpty then none
    else
      let cleaned := stripFences (pyStripChars t.toList)
      match json_loads_list cleaned with
      | some v => some v
      | none =>
        match braceExtract cleaned with
        | some v => some v
        | none => none

-- ───────────────────── Prompt template library (prompts.py) ─────────────────────

/-- Model of `TRIAGE_SYSTEM_PROMPT` (prompts.py lines 9-20). -/
def TRIAGE_SYSTEM_PROMPT : String :=
  "You are an AI operations analyst for a GTM (Go-To-Market) team.\n" ++
  "Your job is to classify incoming automation requests from field teams.\n\n" ++
  "For each request, you must output a JSON object with these fields:\n" ++
  "- \x22gtm_stage\x22: one of \x22Pipeline Generation\x22, \x22Deal Execution\x22, \x22Onboarding & Adoption\x22, \x22Renewal & Expansion\x22\n" ++
  "- \x22complexity\x22: one of \x22Quick Win\x22, \x22Medium\x22, \x22Strategic\x22\n" ++
  "- \x22approach\x22: one of \x22AI Agent\x22, \x22Workflow Automation\x22, \x22Data Fix\x22, \x22Process Change\x22\n" ++
  "- \x22priority_score\x22: integer 1-10 (10 = highest priority)\n" ++
  "- \x22summary\x22: a one-sentence summary of the request\n" ++
  "- \x22rationale\x22: brief explanation of your classification\n\n" ++
  "Respond ONLY with valid JSON. No markdown, no extra text."

/-- Model of `get_triage_prompt` (prompts.py lines 23-32). -/
def get_triage_prompt (pain_point workflow_stage manual_time urgency requester_team : String) : String :=
  "Classify this GTM automation request:\n\n" ++
  "Requester Team: " ++ requester_team ++ "\n" ++
  "Pain Point: " ++ pain_point ++ "\n" ++
  "Current Workflow Stage: " ++ workflow_stage ++ "\n" ++
  "Estimated Manual Time Per Week: " ++ manual_time ++ "\n" ++
  "Urgency: " ++ urgency ++ "\n\n" ++
  "Return your classification as JSON."

/-- Model of `REQUIREMENTS_SYSTEM_PROMPT` (prompts.py lines 37-49). -/
def REQUIREMENTS_SYSTEM_PROMPT : String :=
  "You are a GTM systems engineer who translates vague field requests into structured requirements.\n\n" ++
  "Given a free-text automation request, produce a structured requirements brief with:\n" ++
  "- \x22title\x22: concise project title\n" ++
  "- \x22problem_statement\x22: what problem this solves\n" ++
  "- \x22current_process\x22: how it\x27s done manually today (bullet points)\n" ++
  "- \x22proposed_solution\x22: what the AI/automation should do (bullet points)\n" ++
  "- \x22data_sources\x22: what systems/data are needed\n" ++
  "- \x22success_metrics\x22: how to measure if this worked\n" ++
  "- \x22risks\x22: potential risks or blockers\n" ++
  "- \x22estimated_effort\x22: \x22Small (1-2 days)\x22, \x22Medium (1-2 weeks)\x22, or \x22Large (1+ month)\x22\n\n" ++
  "Respond ONLY with valid JSON. No markdown, no extra text."

/-- Model of `get_requirements_prompt` (prompts.py lines 52-58). -/
def get_requirements_prompt (pain_point context : String) : String :=
  "Generate a structured requirements brief for this automation request:\n\n" ++
  "Request: " ++ pain_point ++ "\n" ++
  "Additional Context: " ++ context ++ "\n\n" ++
  "Return the requirements as JSON."

/-- Model of `BLUEPRINT_SYSTEM_PROMPT` (prompts.py lines 63-75). -/
def BLUEPRINT_SYSTEM_PROMPT : String :=
  "You are a GTM automation architect. Given a requirements brief, generate a detailed workflow blueprint.\n\n" ++
  "The blueprint should include:\n" ++
  "- \x22workflow_name\x22: descriptive name\n" ++
  "- \x22current_state\x22: list of manual steps in the current process\n" ++
  "- \x22proposed_state\x22: list of AI-assisted steps in the new process\n" ++
  "- \x22integrations\x22: list of systems that need to connect\n" ++
  "- \x22governance\x22: data privacy, PII handling, escalation rules\n" ++
  "- \x22success_metrics\x22: specific KPIs to track\n" ++
  "- \x22rollout_plan\x22: phased rollout steps\n" ++
  "- \x22estimated_time_savings\x22: hours per week\n\n" ++
  "Respond ONLY with valid JSON. No markdown, no extra text."

/-- Model of `get_blueprint_prompt` (prompts.py lines 78-85). -/
def get_blueprint_prompt (title problem requirements : String) : String :=
  "Generate a workflow blueprint for:\n\n" ++
  "Project: " ++ title ++ "\n" ++
  "Problem: " ++ problem ++ "\n" ++
  "Requirements: " ++ requirements ++ "\n\n" ++
  "Return the blueprint as JSON."

/-- Model of `SUMMARY_SYSTEM_PROMPT` (prompts.py lines 90-98). -/
def SUMMARY_SYSTEM_PROMPT : String :=
  "You are a GTM operations leader writing an executive summary for leadership.\n" ++
  "Turn raw metrics and project data into a compelling narrative.\n\n" ++
  "Write 2-3 paragraphs covering:\n" ++
  "1. What was shipped and why it matters\n" ++
  "2. Key results (use the metrics provided)\n" ++
  "3. What\x27s next\n\n" ++
  "Keep the tone professional but energetic. Include specific numbers."

/-- Model of `get_summary_prompt` (prompts.py lines 101-107). -/
def get_summary_prompt (project_name metrics : String) : String :=
  "Write an executive summary for this GTM AI project:\n\n" ++
  "Project: " ++ project_name ++ "\n" ++
  "Metrics: " ++ metrics ++ "\n\n" ++
  "Write a 2-3 paragraph executive narrative."

/-- Model of `MOCK_TRIAGE_RESPONSE` (prompts.py lines 112-119). -/
def MOCK_TRIAGE_RESPONSE : List (String × Json) :=
  [("gtm_stage", .str "Pipeline Generation"),
   ("complexity", .str "Medium"),
   ("approach", .str "AI Agent"),
   ("priority_score", .num 7),
   ("summary", .str "Automate lead research to reduce SDR time spent per prospect"),
   ("rationale", .str "High manual time investment in a critical pipeline stage; AI agent can handle research aggregation effectively")]

/-- Model of `MOCK_REQUIREMENTS_RESPONSE` (prompts.py lines 121-140). -/
def MOCK_REQUIREMENTS_RESPONSE : List (String × Json) :=
  [("title", .str "AI-Powered Lead Research Assistant"),
   ("problem_statement", .str "SDRs spend 30+ minutes per lead manually researching company info, recent news, and tech stack before outreach."),
   ("current_process", .arr
     [.str "SDR receives new lead assignment",
      .str "Manually searches LinkedIn, company website, news",
      .str "Copies relevant info into CRM notes",
      .str "Drafts personalized outreach based on research"]),
   ("proposed_solution", .arr
     [.str "AI agent auto-enriches lead data from multiple sources",
      .str "Generates research summary with key talking points",
      .str "Suggests personalized outreach angles",
      .str "Auto-populates CRM fields"]),
   ("data_sources", .arr
     [.str "Salesforce", .str "ZoomInfo", .str "LinkedIn (API)", .str "Company websites"]),
   ("success_metrics", .arr
     [.str "Reduce research time from 30 min to 5 min per lead",
      .str "Increase outreach personalization score",
      .str "Improve response rates by 15%"]),
   ("risks", .arr
     [.str "Data freshness of third-party sources",
      .str "LinkedIn API rate limits",
      .str "PII handling for contact data"]),
   ("estimated_effort", .str "Medium (1-2 weeks)")]

/-- Model of `MOCK_BLUEPRINT_RESPONSE` (prompts.py lines 142-168). -/
def MOCK_BLUEPRINT_RESPONSE : List (String × Json) :=
  [("workflow_name", .str "Automated Lead Research Pipeline"),
   ("current_state", .arr
     [.str "SDR receives lead notification",
      .str "Opens multiple browser tabs (LinkedIn, company site, news)",
      .str "Manually reads and extracts key information",
      .str "Types notes into Salesforce",
      .str "Drafts email based on research"]),
   ("proposed_state", .arr
     [.str "Lead assigned → triggers AI research agent",
      .str "Agent pulls data from ZoomInfo + company site + news APIs",
      .str "AI generates structured research brief",
      .str "Brief auto-attached to Salesforce record",
      .str "AI suggests 3 personalized outreach angles",
      .str "SDR reviews, selects angle, sends outreach"]),
   ("integrations", .arr
     [.str "Salesforce CRM", .str "ZoomInfo API", .str "News API", .str "Email platform (Salesloft)"]),
   ("governance", .obj
     [("pii_handling", .str "Contact PII stored only in Salesforce, not cached by AI"),
      ("escalation_rules", .str "Flag leads from regulated industries for manual review"),
      ("data_retention", .str "Research briefs retained for 90 days")]),
   ("success_metrics", .arr
     [.str "Time per lead research: 30 min → 5 min",
      .str "SDR daily lead capacity: 15 → 40",
      .str "Response rate improvement: baseline + 15%"]),
   ("rollout_plan", .arr
     [.str "Week 1: Deploy to 3 pilot SDRs",
      .str "Week 2: Gather feedback, iterate prompts",
      .str "Week 3: Expand to full SDR team",
      .str "Week 4: Measure and report"]),
   ("estimated_time_savings", .str "12.5 hours per SDR per week")]

-- ───────────────────── LLM orchestration agent (agent.py) ─────────────────────

/-- Python truthiness of an optional string (`if not self.hf_token`,
`a or b`): `None` and the empty string are falsy. -/
def optTruthy : Option String → Bool
  | none => false
  | some s => s != ""

/-- Model of `self.hf_token = hf_token or os.getenv("HF_TOKEN")` in
`GTMOpsAgent.__init__` (agent.py line 29). -/
def agentToken (hf_token envToken : Option String) : Option String :=
  if optTruthy hf_token then hf_token else envToken

/-- One HTTP exchange with the chat-completion endpoint, seen from the
caller: a status code with the content strings of `data["choices"]`, or a
request-level fault (network error, timeout, malformed body). -/
inductive HttpResp where
  | resp (status : Nat) (choices : List String)
  | exn

/-- The network oracle for `_call_llm`: the response to the first request
and to the single retry after a 503, as functions of the request
(system prompt, user prompt, max_tokens). -/
structure LLMNet where
  first : String → String → Nat → HttpResp
  retry : String → String → Nat → HttpResp

/-- Model of `data["choices"][0].get("message", {}).get("content", "").strip()`
guarded by `"choices" in data and len(data["choices"]) > 0`
(agent.py lines 56-57): the first choice's trimmed content, or nothing
when the choices list is empty (the caller then falls through to
`return None`). -/
def extractContent : List String → Option String
  | c :: _ => some (pyStrip c)
  | [] => none

/-- Model of `GTMOpsAgent._call_llm` (agent.py lines 36-71): no credential means
no call; otherwise one request, with a single identical retry on 503;
every fault path yields `None` and never raises. -/
def _call_llm (hf_token : Option String) (net : LLMNet)
    (system_prompt user_prompt : String) (max_tokens : Nat) : Option String :=
  if !optTruthy hf_token then none
  else
    match net.first system_prompt user_prompt max_tokens with
    | .exn => none
    | .resp status choices =>
      if status == 200 then
        match extractContent choices with
        | some c => some c
        | none => none
      else if status == 503 then
        match net.retry system_prompt user_prompt max_tokens with
        | .exn => none
        | .resp s₂ choices₂ =>
          if s₂ == 200 then
            match extractContent choices₂ with
            | some c => some c
            | none => none
          else none
      else none

/-- Model of `parsed = self._parse_json(raw) if raw else None`. -/
def parseIfRaw (raw : Option String) : Option Json :=
  match raw with
  | some r => if r.toList.isEmpty then none else _parse_json (some r)
  | none => none

/-- The mock fallback branch shared by the three JSON tasks:
`result = dict(MOCK); result["_source"] = "mock";
result["_latency_ms"] = ...`. -/
def mockTagged (mock : List (String × Json)) (latency : Nat) : Json :=
  .obj (dictSet (dictSet mock "_source" (.str "mock")) "_latency_ms" (.num latency))

/-- The `if parsed: ... else: ...` result shaping shared by
`triage_request`, `generate_requirements` and `generate_blueprint`
(e.g. agent.py lines 104-114).  A truthy parsed value is tagged in place
— which raises `TypeError` when it is not a dict. -/
def shapeResult (parsed : Option Json) (mock : List (String × Json))
    (latency : Nat) : Except PyErr Json :=
  match parsed with
  | some v =>
    if jsonTruthy v then
      match setItem v "_source" (.str "llm") with
      | .ok r => setItem r "_latency_ms" (.num latency)
      | .error e => .error e
    else .ok (mockTagged mock latency)
  | none => .ok (mockTagged mock latency)

/-- Model of `GTMOpsAgent.triage_request` (agent.py lines 98-114).  The elapsed
wall-clock milliseconds are the `latency` parameter. -/
def triage_request (hf_token : Option String) (net : LLMNet) (latency : Nat)
    (pain_point workflow_stage manual_time urgency requester_team : String) :
    Except PyErr Json :=
  let raw := _call_llm hf_token net TRIAGE_SYSTEM_PROMPT
    (get_triage_prompt pain_point workflow_stage manual_time urgency requester_team) 800
  shapeResult (parseIfRaw raw) MOCK_TRIAGE_RESPONSE latency

/-- Model of `GTMOpsAgent.generate_requirements` (agent.py lines 116-131). -/
def generate_requirements (hf_token : Option String) (net : LLMNet) (latency : Nat)
    (pain_point context : String) : Except PyErr Json :=
  let raw := _call_llm hf_token net REQUIREMENTS_SYSTEM_PROMPT
    (get_requirements_prompt pain_point context) 800
  shapeResult (parseIfRaw raw) MOCK_REQUIREMENTS_RESPONSE latency

/-- Model of `GTMOpsAgent.generate_blueprint` (agent.py lines 133-148). -/
def generate_blueprint (hf_token : Option String) (net : LLMNet) (latency : Nat)
    (title problem requirements : String) : Except PyErr Json :=
  let raw := _call_llm hf_token net BLUEPRINT_SYSTEM_PROMPT
    (get_blueprint_prompt title problem requirements) 800
  shapeResult (parseIfRaw raw) MOCK_BLUEPRINT_RESPONSE latency

/-- The fixed fallback narrative of `generate_executive_summary`
(agent.py lines 159-169), parameterised by the interpolated project
name. -/
def mockSummaryText (project_name : String) : String :=
  "**" ++ project_name ++ "** has been deployed and is delivering measurable impact. " ++
  "The automation reduced manual processing time by 75%, freeing up team capacity " ++
  "for higher-value activities. Early adoption metrics show strong engagement " ++
  "across the target user group.\n\n" ++
  "Next steps include expanding to additional teams and refining the AI model " ++
  "based on user feedback collected during the pilot phase."

/-- Model of `GTMOpsAgent.generate_executive_summary` (agent.py lines 150-172):
no JSON parsing — raw trimmed text is the summary; this operation builds
only dict literals and cannot raise. -/
def generate_executive_summary (hf_token : Option String) (net : LLMNet)
    (latency : Nat) (project_name metrics : String) : Json :=
  let raw := _call_llm hf_token net SUMMARY_SYSTEM_PROMPT
    (get_summary_prompt project_name metrics) 600
  match raw with
  | some r =>
    if r.toList.isEmpty then
      .obj [("summary", .str (mockSummaryText project_name)),
            ("_source", .str "mock"), ("_latency_ms", .num latency)]
    else
      .obj [("summary", .str r), ("_source", .str "llm"),
            ("_latency_ms", .num latency)]
  | none =>
    .obj [("summary", .str (mockSummaryText project_name)),
          ("_source", .str "mock"), ("_latency_ms", .num latency)]

-- ─────────────── Agent-workforce client (relevance_handler.py) ───────────────

/-- The environment-derived configuration of `RelevanceAgentHandler.__init__`
(relevance_handler.py lines 13-17). -/
structure RelConfig where
  project_id : Option String
  api_key : Option String
  agent_id : Option String
  region : String

/-- One update in a poll response body (`{updates: [{type, output}, ...]}`);
`output` is a JSON object as the wire contract of §6 of the spec
describes. -/
structure PollUpdate where
  utype : Option String
  output : List (String × Json)

/-- One poll exchange: HTTP status, raw body text, and the parsed
`updates` list — or a request-level fault (which the handler's outer
`except` turns into a `status: error` result). -/
inductive PollResp where
  | resp (status : Nat) (btext : String) (updates : List PollUpdate)
  | exn (msg : String)

/-- One trigger exchange at `{base}/agents/trigger`: HTTP status, raw body
text, `conversation_id`, `job_info.job_id` / `job_info.studio_id`, and the
whole parsed body (returned verbatim when no async job is present). -/
inductive TriggerResp where
  | resp (status : Nat) (btext : String) (conversation_id : Option Json)
      (job_id studio_id : Option String) (rawBody : Json)
  | exn (msg : String)

/-- Model of `{"status": "error", "message": msg}`. -/
def relError (msg : String) : Json :=
  .obj [("status", .str "error"), ("message", .str msg)]

/-- Model of `{"status": "success", "response": {"output": v}}`. -/
def relSuccess (v : Json) : Json :=
  .obj [("status", .str "success"), ("response", .obj [("output", v)])]

/-- Model of `f"API Error {resp.status_code}: {resp.text[:100]}"`. -/
def apiErrorMsg (status : Nat) (btext : String) : String :=
  "API Error " ++ toString status ++ ": " ++ String.mk (btext.toList.take 100)

/-- Model of `update.get("type") in ["chain-success", "agent-step"]`. -/
def isTerminalType (u : PollUpdate) : Bool :=
  u.utype == some "chain-success" || u.utype == some "agent-step"

/-- The `isinstance(out.get("output"), dict) and "answer" in out["output"]`
probe (relevance_handler.py line 134). -/
def nestedAnswer (out : List (String × Json)) : Option Json :=
  match jlookup out "output" with
  | some (.obj inner) => jlookup inner "answer"
  | _ => none

/-- The `answer` / `text` / nested `output.answer` extraction chain applied
to one update's output (relevance_handler.py lines 130-135). -/
def extractAnswer (out : List (String × Json)) : Option Json :=
  match jlookup out "answer" with
  | some v => some v
  | none =>
    match jlookup out "text" with
    | some v => some v
    | none => nestedAnswer out

/-- The `for update in reversed(updates)` scan (relevance_handler.py lines
126-135), running on the already-reversed list: return at the first
update of type chain-success / agent-step that carries a recognised
answer field; updates without one are passed over. -/
def scanBack : List PollUpdate → Option Json
  | [] => none
  | u :: rest =>
    if isTerminalType u then
      match extractAnswer u.output with
      | some v => some (relSuccess v)
      | none => scanBack rest
    else scanBack rest

/-- The per-poll update scan: most recent update first. -/
def scanUpdates (updates : List PollUpdate) : Option Json :=
  scanBack updates.reverse

/-- Model of `any(u.get("type") == "chain-failed" for u in updates)`. -/
def hasChainFailed (updates : List PollUpdate) : Bool :=
  updates.any (fun u => u.utype == some "chain-failed")

/-- The bounded polling loop `for _ in range(30)` of `chat_with_agent`
(relevance_handler.py lines 118-141), with the remaining attempt budget
as fuel and the attempt index selecting the oracle's response.  Returns
the result together with the number of poll requests issued.  A
request-level fault aborts with the fault message (the outer `except`);
a non-200 poll is skipped; exhausting the budget yields the timeout
error. -/
def runPolls (net : Nat → PollResp) (idx : Nat) : Nat → Json × Nat
  | 0 => (relError "Timed out waiting for agent response.", 0)
  | fuel + 1 =>
    match net idx with
    | .exn msg => (relError msg, 1)
    | .resp status _ updates =>
      if status == 200 then
        match scanUpdates updates with
        | some res => (res, 1)
        | none =>
          if hasChainFailed updates then (relError "Agent execution failed.", 1)
          else
            let r := runPolls net (idx + 1) fuel
            (r.1, r.2 + 1)
      else
        let r := runPolls net (idx + 1) fuel
        (r.1, r.2 + 1)

/-- The observable outcome of a handler operation: its returned JSON and
how many trigger / poll HTTP requests it issued. -/
structure RelOutcome where
  result : Json
  triggerCalls : Nat
  pollCalls : Nat

/-- Model of `RelevanceAgentHandler.trigger_research` (relevance_handler.py lines
31-62): missing project id / key / agent id short-circuits to an error
with no network call. -/
def trigger_research (cfg : RelConfig) (net : TriggerResp)
    (_company_name _context : String) : RelOutcome :=
  if !(optTruthy cfg.project_id && optTruthy cfg.api_key && optTruthy cfg.agent_id) then
    { result := relError "Relevance AI credentials missing",
      triggerCalls := 0, pollCalls := 0 }
  else
    match net with
    | .exn msg => { result := relError msg, triggerCalls := 1, pollCalls := 0 }
    | .resp status btext conv _ _ _ =>
      if status == 200 then
        { result := .obj
            [("status", .str "success"),
             ("conversation_id", conv.getD .null),
             ("message", .str "Research agent triggered successfully")],
          triggerCalls := 1, pollCalls := 0 }
      else
        { result := relError (apiErrorMsg status btext),
          triggerCalls := 1, pollCalls := 0 }

/-- Model of `RelevanceAgentHandler.chat_with_agent` (relevance_handler.py lines
82-151).  Note the guard checks only the project id and the API key —
the agent id is a per-call argument and the configured one is not
consulted.  On a 200 trigger with an async job descriptor the bounded
poll loop runs; without one the whole body is returned verbatim. -/
def chat_with_agent (cfg : RelConfig) (trig : TriggerResp)
    (polls : Nat → PollResp) (_agent_id _message : String) : RelOutcome :=
  if !(optTruthy cfg.project_id && optTruthy cfg.api_key) then
    { result := relError "Relevance AI credentials missing",
      triggerCalls := 0, pollCalls := 0 }
  else
    match trig with
    | .exn msg => { result := relError msg, triggerCalls := 1, pollCalls := 0 }
    | .resp status btext _ job_id studio_id rawBody =>
      if status == 200 then
        if optTruthy job_id && optTruthy studio_id then
          let r := runPolls polls 0 30
          { result := r.1, triggerCalls := 1, pollCalls := r.2 }
        else
          { result := .obj [("status", .str "success"), ("response", rawBody)],
            triggerCalls := 1, pollCalls := 0 }
      else
        { result := relError (apiErrorMsg status btext),
          triggerCalls := 1, pollCalls := 0 }

-- ───────────────────────── Web application (app.py) ─────────────────────────

/-- A row of the `intake_requests` table as the intake handler writes it
(app.py lines 165-180); the triage-derived columns hold whatever JSON
values the agent result supplied. -/
structure IntakeRow where
  id : String
  requester_name : String
  requester_team : String
  pain_point : String
  workflow_stage : String
  manual_time_hours : Rat
  urgency : String
  created_at : String
  gtm_stage : Json
  complexity : Json
  approach : Json
  priority_score : Json
  triage_summary : Json
  requirements_json : Json
  status : String

/-- A row of the `backlog_items` table as the web layer reads and writes
it; `assigned_to` and `estimated_time_savings` are nullable. -/
structure BacklogRow where
  id : String
  request_id : String
  title : Json
  requester_name : String
  requester_team : String
  gtm_stage : Json
  complexity : Json
  approach : Json
  priority_score : Json
  status : String
  assigned_to : Option String
  estimated_time_savings : Option String
  created_at : String
  updated_at : String

/-- The two tables the intake handler touches. -/
structure WebDb where
  intake_requests : List IntakeRow
  backlog_items : List BacklogRow

/-- The `intake_requests` row built by `intake_submit` (app.py lines
165-180): form fields verbatim, triage fields via `triage.get(...)` with
the handler's defaults, status fixed to `'Intake'`. -/
def newIntakeRow (req_id now : String) (triage requirements : List (String × Json))
    (requester_name requester_team pain_point workflow_stage : String)
    (manual_time_hours : Rat) (urgency : String) : IntakeRow :=
  { id := req_id
    requester_name := requester_name
    requester_team := requester_team
    pain_point := pain_point
    workflow_stage := workflow_stage
    manual_time_hours := manual_time_hours
    urgency := urgency
    created_at := now
    gtm_stage := jgetD triage "gtm_stage" (.str "Unknown")
    complexity := jgetD triage "complexity" (.str "Unknown")
    approach := jgetD triage "approach" (.str "Unknown")
    priority_score := jgetD triage "priority_score" (.num 5)
    triage_summary := jgetD triage "summary" (.str (String.mk (pain_point.toList.take 100)))
    requirements_json := .obj requirements
    status := "Intake" }

/-- The `backlog_items` row built by `intake_submit` (app.py lines
184-198): title from `triage.get("summary", pain_point[:60])`, status
fixed to `'Intake'`; the unlisted nullable columns take their defaults. -/
def newBacklogRow (blg_id req_id now : String) (triage : List (String × Json))
    (requester_name requester_team pain_point : String) : BacklogRow :=
  { id := blg_id
    request_id := req_id
    title := jgetD triage "summary" (.str (String.mk (pain_point.toList.take 60)))
    requester_name := requester_name
    requester_team := requester_team
    gtm_stage := jgetD triage "gtm_stage" (.str "Unknown")
    complexity := jgetD triage "complexity" (.str "Unknown")
    approach := jgetD triage "approach" (.str "Unknown")
    priority_score := jgetD triage "priority_score" (.num 5)
    status := "Intake"
    assigned_to := none
    estimated_time_savings := none
    created_at := now
    updated_at := now }

/-- The database effect of the happy path of `POST /intake`
(`intake_submit`, app.py lines 136-215): after the triage and
requirements agent calls have returned (their result dicts are the
`triage` / `requirements` parameters; the generated `REQ-`/`BLG-` ids and
the timestamp are parameters), insert exactly one intake-request row and
exactly one backlog-item row. -/
def intake_submit (db : WebDb) (req_id blg_id now : String)
    (triage requirements : List (String × Json))
    (requester_name requester_team pain_point workflow_stage : String)
    (manual_time_hours : Rat) (urgency : String) : WebDb :=
  { intake_requests := db.intake_requests ++
      [newIntakeRow req_id now triage requirements
        requester_name requester_team pain_point workflow_stage
        manual_time_hours urgency]
    backlog_items := db.backlog_items ++
      [newBacklogRow blg_id req_id now triage
        requester_name requester_team pain_point] }

/-- The `WHERE` clause built by `backlog_page` (app.py lines 225-241):
an empty filter string adds no clause (Python truthiness of `team` /
`status`); both clauses are ANDed. -/
def matchesFilter (team status : String) (it : BacklogRow) : Bool :=
  (team == "" || it.requester_team == team) &&
  (status == "" || it.status == status)

/-- The rows the board query returns for a team/status filter.  (The
query's `ORDER BY priority_score DESC, created_at DESC` only permutes the
result; the partition statements below are order-insensitive, so the
sort is not modelled.) -/
def boardItems (db : List BacklogRow) (team status : String) : List BacklogRow :=
  db.filter (matchesFilter team status)

/-- The six fixed Kanban columns of `backlog_page` (app.py lines 244-247),
in their fixed order. -/
def kanbanLabels : List String :=
  ["Intake", "Scoping", "In Build", "QA", "Deployed", "Measuring"]

/-- The six column lists. -/
structure KanbanCols where
  intake : List BacklogRow
  scoping : List BacklogRow
  inBuild : List BacklogRow
  qa : List BacklogRow
  deployed : List BacklogRow
  measuring : List BacklogRow

/-- The empty board. -/
def kanbanEmpty : KanbanCols :=
  { intake := [], scoping := [], inBuild := [], qa := [], deployed := [],
    measuring := [] }

/-- Column selection by status label (`columns[col]`). -/
def colGet (c : KanbanCols) : String → List BacklogRow
  | "Intake" => c.intake
  | "Scoping" => c.scoping
  | "In Build" => c.inBuild
  | "QA" => c.qa
  | "Deployed" => c.deployed
  | "Measuring" => c.measuring
  | _ => []

/-- One iteration of the grouping loop (app.py lines 248-251):
`if col in columns: columns[col].append(item)` — an item whose status is
not one of the six labels is appended to no column. -/
def kanbanStep (acc : KanbanCols) (it : BacklogRow) : KanbanCols :=
  if it.status = "Intake" then { acc with intake := acc.intake ++ [it] }
  else if it.status = "Scoping" then { acc with scoping := acc.scoping ++ [it] }
  else if it.status = "In Build" then { acc with inBuild := acc.inBuild ++ [it] }
  else if it.status = "QA" then { acc with qa := acc.qa ++ [it] }
  else if it.status = "Deployed" then { acc with deployed := acc.deployed ++ [it] }
  else if it.status = "Measuring" then { acc with measuring := acc.measuring ++ [it] }
  else acc

/-- The full grouping loop of `backlog_page`. -/
def buildColumns (items : List BacklogRow) : KanbanCols :=
  items.foldl kanbanStep kanbanEmpty

/-- Membership in some column of the board. -/
def inSomeColumn (c : KanbanCols) (it : BacklogRow) : Prop :=
  it ∈ c.intake ∨ it ∈ c.scoping ∨ it ∈ c.inBuild ∨ it ∈ c.qa ∨
  it ∈ c.deployed ∨ it ∈ c.measuring

/-- Model of `POST /backlog/update` (`backlog_update`, app.py lines 275-288),
fault-free path: `UPDATE backlog_items SET status = ?, updated_at = ?
WHERE id = ?` followed by `{"success": True}` — no existence check, no
status-vocabulary check. -/
def backlog_update (db : List BacklogRow) (item_id new_status now : String) :
    List BacklogRow × Json :=
  (db.map (fun it =>
      if it.id = item_id then { it with status := new_status, updated_at := now }
      else it),
   .obj [("success", .bool true)])

-- ──────────────────────── Persistence seed loader (seed.py) ────────────────────────

/-- An `intake_requests` seed row: exactly the columns the seed INSERT
supplies (seed.py lines 130-133); `created_at` and `requirements_json`
take their table defaults. -/
structure SeedIntakeRow where
  id : String
  requester_name : String
  requester_team : String
  pain_point : String
  workflow_stage : String
  manual_time_hours : Rat
  urgency : String
  gtm_stage : String
  complexity : String
  approach : String
  priority_score : Int
  triage_summary : String

/-- A `backlog_items` seed row (columns of the INSERT at seed.py lines
147-150). -/
structure SeedBacklogRow where
  id : String
  request_id : String
  title : String
  requester_name : String
  requester_team : String
  gtm_stage : String
  complexity : String
  approach : String
  priority_score : Int
  status : String
  assigned_to : Option String
  estimated_time_savings : String

/-- An `impact_metrics` seed row (seed.py lines 160-163). -/
structure SeedImpactRow where
  id : String
  request_id : String
  title : String
  status : String
  manual_time_before : Rat
  ai_time_after : Rat
  adoption_rate : Rat
  roi_estimate : Rat
  weeks_deployed : Int

/-- A `prompt_versions` seed row (seed.py lines 173-176). -/
structure SeedPromptRow where
  id : String
  request_id : String
  version : Int
  prompt_text : String
  response_text : String
  quality_score : Rat

/-- An `audit_log` seed row (seed.py lines 194-197). -/
structure SeedAuditRow where
  id : String
  timestamp : String
  event_type : String
  actor : String
  request_id : String
  description : String
  input_snapshot : Option String
  output_snapshot : Option String

/-- A `qa_checks` seed row (seed.py lines 213-216). -/
structure SeedQARow where
  id : String
  request_id : String
  workflow_title : String
  check_name : String
  status : String
  details : String
  run_at : String

/-- The six tables of the embedded database file.  A freshly created
table is the empty list; `CREATE TABLE IF NOT EXISTS` makes creation of
an absent table and of an existing one indistinguishable at this level. -/
structure SeedDatabase where
  intake_requests : List SeedIntakeRow
  backlog_items : List SeedBacklogRow
  prompt_versions : List SeedPromptRow
  impact_metrics : List SeedImpactRow
  audit_log : List SeedAuditRow
  qa_checks : List SeedQARow

/-- The database with all six tables empty. -/
def emptyDatabase : SeedDatabase :=
  { intake_requests := [], backlog_items := [], prompt_versions := [],
    impact_metrics := [], audit_log := [], qa_checks := [] }

/-- Model of `create_tables` (seed.py lines 17-108): `CREATE TABLE IF NOT EXISTS`
for all six tables — an absent database becomes the empty one, an
existing database is untouched. -/
def create_tables (db : Option SeedDatabase) : SeedDatabase :=
  db.getD emptyDatabase

/-- Model of `requests_data` (seed.py lines 119-128). -/
def requests_data : List SeedIntakeRow :=
  [⟨"REQ-001", "Sarah Chen", "Sales (SDR)", "Our SDRs spend 30 min per lead researching company info, recent news, and tech stack before outreach. This is killing our daily lead capacity.", "Prospecting", 15.0, "High", "Pipeline Generation", "Medium", "AI Agent", 8, "Automate lead research aggregation to reduce SDR prep time"⟩,
   ⟨"REQ-002", "James Rodriguez", "Customer Success", "CSMs manually track renewal risk in spreadsheets. We have no early warning system — we find out accounts are churning when it\x27s too late.", "Renewal Tracking", 10.0, "Critical", "Renewal & Expansion", "Strategic", "AI Agent", 9, "Build predictive churn early-warning system using engagement signals"⟩,
   ⟨"REQ-003", "Priya Patel", "RevOps", "Deal data in Salesforce is inconsistent — missing fields, wrong stages, duplicate contacts. We spend hours weekly on manual cleanup.", "Data Management", 8.0, "Medium", "Deal Execution", "Quick Win", "Data Fix", 6, "Automated data hygiene scanning and correction for CRM records"⟩,
   ⟨"REQ-004", "Marcus Thompson", "Sales (AE)", "After every customer meeting, I spend 20 min writing follow-up emails. Could AI draft these from my meeting notes?", "Follow-up", 5.0, "Medium", "Deal Execution", "Quick Win", "AI Agent", 7, "AI-generated follow-up emails from meeting notes and CRM context"⟩,
   ⟨"REQ-005", "Lisa Wang", "Marketing Ops", "We can\x27t tell which campaigns are actually driving pipeline vs. just generating MQLs that never convert. Attribution is manual and unreliable.", "Campaign Attribution", 12.0, "High", "Pipeline Generation", "Strategic", "Workflow Automation", 8, "Automated multi-touch attribution connecting marketing campaigns to closed revenue"⟩,
   ⟨"REQ-006", "David Kim", "Customer Success", "Onboarding new customers takes 6 weeks because CSMs manually create and track implementation checklists. Every customer gets a slightly different experience.", "Onboarding", 20.0, "High", "Onboarding & Adoption", "Medium", "Workflow Automation", 7, "Standardized automated onboarding workflow with milestone tracking"⟩,
   ⟨"REQ-007", "Rachel Foster", "Sales (Manager)", "I can\x27t get a real-time view of deal health across my team. I rely on reps self-reporting in stand-ups, which is always outdated.", "Pipeline Review", 6.0, "Medium", "Deal Execution", "Medium", "AI Agent", 6, "AI-powered deal health scoring using engagement and activity signals"⟩,
   ⟨"REQ-008", "Alex Nguyen", "RevOps", "Quarterly business reviews take 2 weeks to prepare because we\x27re pulling data from 5 different systems and manually building slides.", "Reporting", 16.0, "Low", "Renewal & Expansion", "Medium", "Workflow Automation", 5, "Automated QBR data aggregation and narrative generation"⟩]

/-- Model of `backlog_data` (seed.py lines 136-145). -/
def backlog_data : List SeedBacklogRow :=
  [⟨"BLG-001", "REQ-001", "AI Lead Research Assistant", "Sarah Chen", "Sales (SDR)", "Pipeline Generation", "Medium", "AI Agent", 8, "In Build", some "Alex (AI Eng)", "12.5 hrs/week"⟩,
   ⟨"BLG-002", "REQ-002", "Churn Early Warning System", "James Rodriguez", "Customer Success", "Renewal & Expansion", "Strategic", "AI Agent", 9, "Scoping", some "Maya (Data Sci)", "8 hrs/week"⟩,
   ⟨"BLG-003", "REQ-003", "CRM Data Hygiene Bot", "Priya Patel", "RevOps", "Deal Execution", "Quick Win", "Data Fix", 6, "Deployed", some "Alex (AI Eng)", "6 hrs/week"⟩,
   ⟨"BLG-004", "REQ-004", "AI Follow-Up Drafter", "Marcus Thompson", "Sales (AE)", "Deal Execution", "Quick Win", "AI Agent", 7, "QA", some "Alex (AI Eng)", "4 hrs/week"⟩,
   ⟨"BLG-005", "REQ-005", "Multi-Touch Attribution Engine", "Lisa Wang", "Marketing Ops", "Pipeline Generation", "Strategic", "Workflow Automation", 8, "Scoping", some "Jordan (Ops)", "10 hrs/week"⟩,
   ⟨"BLG-006", "REQ-006", "Automated Onboarding Orchestrator", "David Kim", "Customer Success", "Onboarding & Adoption", "Medium", "Workflow Automation", 7, "In Build", some "Jordan (Ops)", "15 hrs/week"⟩,
   ⟨"BLG-007", "REQ-007", "Deal Health AI Scorer", "Rachel Foster", "Sales (Manager)", "Deal Execution", "Medium", "AI Agent", 6, "Intake", none, "5 hrs/week"⟩,
   ⟨"BLG-008", "REQ-008", "QBR Auto-Generator", "Alex Nguyen", "RevOps", "Renewal & Expansion", "Medium", "Workflow Automation", 5, "Intake", none, "12 hrs/week"⟩]

/-- Model of `impact_data` (seed.py lines 153-158). -/
def impact_data : List SeedImpactRow :=
  [⟨"IMP-001", "REQ-003", "CRM Data Hygiene Bot", "Deployed", 8.0, 1.5, 92.0, 4200.0, 6⟩,
   ⟨"IMP-002", "REQ-001", "AI Lead Research Assistant", "Measuring", 15.0, 3.0, 78.0, 8500.0, 3⟩,
   ⟨"IMP-003", "REQ-004", "AI Follow-Up Drafter", "QA", 5.0, 1.0, 0.0, 0.0, 0⟩,
   ⟨"IMP-004", "REQ-006", "Automated Onboarding Orchestrator", "In Build", 20.0, 5.0, 0.0, 0.0, 0⟩]

/-- Model of `prompt_data` (seed.py lines 166-171). -/
def prompt_data : List SeedPromptRow :=
  [⟨"PV-001", "REQ-001", 1, "Research this lead and provide key talking points for an SDR.", "Company: Acme Corp, Industry: SaaS, Key Points: Series B funding, expanding to EMEA, uses AWS...", 6.5⟩,
   ⟨"PV-002", "REQ-001", 2, "You are an SDR research assistant. Given a lead\x27s company name and industry, provide: 1) Company overview, 2) Recent news, 3) Tech stack signals, 4) Recommended talking points.", "**Acme Corp — SDR Research Brief**\n\n1. Overview: Mid-market SaaS...", 8.2⟩,
   ⟨"PV-003", "REQ-002", 1, "Analyze this customer\x27s engagement data and predict churn risk.", "Based on the engagement signals, this account shows moderate risk...", 5.8⟩,
   ⟨"PV-004", "REQ-002", 2, "You are a customer health analyst. Given an account\x27s engagement metrics (login frequency, support tickets, feature adoption, NPS), produce a risk score (1-10) and recommended actions.", "**Churn Risk Assessment**\n\nRisk Score: 7/10\nKey Signals: Login frequency down 40%...", 7.9⟩]

/-- Model of `audit_data` (seed.py lines 179-192). -/
def audit_data : List SeedAuditRow :=
  [⟨"AUD-001", "2026-02-10 09:15:00", "triage", "System (AI)", "REQ-001", "AI triage completed for SDR lead research request — classified as Medium complexity, AI Agent approach", none, none⟩,
   ⟨"AUD-002", "2026-02-10 09:16:00", "intake_received", "Sarah Chen", "REQ-001", "New intake request submitted by Sales (SDR) team — 15 hrs/week manual effort reported", none, none⟩,
   ⟨"AUD-003", "2026-02-11 14:30:00", "triage", "System (AI)", "REQ-002", "AI triage completed for churn early-warning request — classified as Strategic complexity, AI Agent approach", none, none⟩,
   ⟨"AUD-004", "2026-02-12 10:00:00", "blueprint_generated", "System (AI)", "REQ-001", "Workflow blueprint auto-generated for AI Lead Research Assistant — 4 steps, 2 integrations", none, none⟩,
   ⟨"AUD-005", "2026-02-12 16:45:00", "prompt_tested", "Alex (AI Eng)", "REQ-001", "Prompt v2 tested in Prompt Lab — quality score improved from 6.5 to 8.2", some "Research this lead...", some "SDR Research Brief generated"⟩,
   ⟨"AUD-006", "2026-02-13 11:00:00", "qa_completed", "Alex (AI Eng)", "REQ-003", "QA checks passed for CRM Data Hygiene Bot — 4/4 checks passed, no PII exposure detected", none, none⟩,
   ⟨"AUD-007", "2026-02-13 14:20:00", "status_change", "Jordan (Ops)", "REQ-003", "CRM Data Hygiene Bot moved from QA → Deployed", none, none⟩,
   ⟨"AUD-008", "2026-02-14 09:00:00", "deployment", "Alex (AI Eng)", "REQ-003", "CRM Data Hygiene Bot deployed to production — rollout to RevOps team (12 users)", none, none⟩,
   ⟨"AUD-009", "2026-02-14 15:30:00", "prompt_tested", "Maya (Data Sci)", "REQ-002", "Prompt v2 tested for churn prediction — quality score improved from 5.8 to 7.9", none, none⟩,
   ⟨"AUD-010", "2026-02-15 10:15:00", "qa_completed", "Alex (AI Eng)", "REQ-004", "QA checks for AI Follow-Up Drafter — 3/4 passed, 1 warning (tone consistency)", none, none⟩,
   ⟨"AUD-011", "2026-02-16 08:45:00", "status_change", "Alex (AI Eng)", "REQ-001", "AI Lead Research Assistant moved from In Build → QA", none, none⟩,
   ⟨"AUD-012", "2026-02-17 09:00:00", "compliance_review", "Legal Review", "REQ-002", "Data usage compliance review initiated for churn model — customer engagement data requires DPA verification", none, none⟩]

/-- Model of `qa_data` (seed.py lines 200-211). -/
def qa_data : List SeedQARow :=
  [⟨"QA-001", "REQ-003", "CRM Data Hygiene Bot", "PII Detection", "pass", "No PII fields exposed in AI-generated outputs. Email and phone fields masked correctly.", "2026-02-13 10:30:00"⟩,
   ⟨"QA-002", "REQ-003", "CRM Data Hygiene Bot", "Hallucination Check", "pass", "Output field corrections validated against source CRM data — 98.5% accuracy.", "2026-02-13 10:32:00"⟩,
   ⟨"QA-003", "REQ-003", "CRM Data Hygiene Bot", "Prompt Injection", "pass", "Adversarial prompt inputs rejected correctly. No instruction override detected.", "2026-02-13 10:34:00"⟩,
   ⟨"QA-004", "REQ-003", "CRM Data Hygiene Bot", "Data Leakage", "pass", "Cross-account data isolation verified — no data bleed between tenant records.", "2026-02-13 10:36:00"⟩,
   ⟨"QA-005", "REQ-004", "AI Follow-Up Drafter", "PII Detection", "pass", "Customer names used appropriately. No SSN, financial, or health data in outputs.", "2026-02-15 10:00:00"⟩,
   ⟨"QA-006", "REQ-004", "AI Follow-Up Drafter", "Hallucination Check", "pass", "Follow-up content matches meeting notes context — no fabricated commitments.", "2026-02-15 10:02:00"⟩,
   ⟨"QA-007", "REQ-004", "AI Follow-Up Drafter", "Tone Consistency", "warning", "Tone slightly varies between formal and casual across generated drafts. Recommend adding style guide constraint.", "2026-02-15 10:04:00"⟩,
   ⟨"QA-008", "REQ-004", "AI Follow-Up Drafter", "Prompt Injection", "pass", "Adversarial inputs handled correctly. System prompt boundaries maintained.", "2026-02-15 10:06:00"⟩,
   ⟨"QA-009", "REQ-001", "AI Lead Research Assistant", "Bias Detection", "warning", "Minor geographic bias detected — US-based companies receive 15% more detail. Recommend balancing training examples.", "2026-02-16 14:00:00"⟩,
   ⟨"QA-010", "REQ-001", "AI Lead Research Assistant", "PII Detection", "pass", "Lead research outputs contain only company-level public data. No individual PII surfaced.", "2026-02-16 14:02:00"⟩]

/-- Model of `seed_data` (seed.py lines 111-216): a no-op whenever
`intake_requests` already holds at least one row, otherwise the six
`executemany` bulk inserts. -/
def seed_data (db : SeedDatabase) : SeedDatabase :=
  if db.intake_requests.length > 0 then db
  else
    { intake_requests := db.intake_requests ++ requests_data
      backlog_items := db.backlog_items ++ backlog_data
      prompt_versions := db.prompt_versions ++ prompt_data
      impact_metrics := db.impact_metrics ++ impact_data
      audit_log := db.audit_log ++ audit_data
      qa_checks := db.qa_checks ++ qa_data }

/-- Model of `initialize_database` (seed.py lines 219-224): create tables, seed if
empty.  `none` models a database file that does not yet exist. -/
def initialize_database (db : Option SeedDatabase) : SeedDatabase :=
  seed_data (create_tables db)

-- ───────────────────────── Concrete test fixtures ─────────────────────────

/-- An LLM network oracle that always answers 200 with a single choice
whose content is the JSON array text `[1, 2, 3]`. -/
def netArrayReply : LLMNet :=
  { first := fun _ _ _ => .resp 200 ["[1, 2, 3]"],
    retry := fun _ _ _ => .resp 200 ["[1, 2, 3]"] }

/-- A handler configuration with project id and API key present but no
configured agent id. -/
def cfgNoAgentId : RelConfig :=
  { project_id := some "proj-1", api_key := some "key-1", agent_id := none,
    region := "us-east-1" }

/-- A fully configured handler. -/
def cfgFull : RelConfig :=
  { project_id := some "proj-1", api_key := some "key-1",
    agent_id := some "agent-1", region := "us-east-1" }

/-- A 200 trigger response with no `job_info` descriptor. -/
def trigNoJob : TriggerResp :=
  .resp 200 "" none none none (.obj [("ok", .bool true)])

/-- A 200 trigger response with an async job descriptor. -/
def trigWithJob : TriggerResp :=
  .resp 200 "" none (some "job-9") (some "studio-3") .null

/-- A poll oracle that always answers 200 with no updates. -/
def pollsEmpty : Nat → PollResp := fun _ => .resp 200 "" []

/-- A poll oracle whose first response carries an `agent-step` update
with an `answer` field. -/
def pollsAnswered : Nat → PollResp := fun _ =>
  .resp 200 "" [⟨some "agent-step", [("answer", .str "42 leads enriched")]⟩]

/-- A backlog row whose status is outside the six Kanban labels
(reachable through `POST /backlog/update`, which stores any status
verbatim). -/
def archivedRow : BacklogRow :=
  { id := "BLG-X01", request_id := "REQ-X01", title := .str "Archived item",
    requester_name := "Jordan", requester_team := "RevOps",
    gtm_stage := .str "Deal Execution", complexity := .str "Medium",
    approach := .str "AI Agent", priority_score := .num 5,
    status := "Archived", assigned_to := none,
    estimated_time_savings := none,
    created_at := "2026-03-01 09:00:00", updated_at := "2026-03-01 09:00:00" }

/-- A backlog row in the `Intake` column. -/
def intakeRowFixture : BacklogRow :=
  { id := "BLG-X02", request_id := "REQ-X02", title := .str "Intake item",
    requester_name := "Priya", requester_team := "RevOps",
    gtm_stage := .str "Deal Execution", complexity := .str "Quick Win",
    approach := .str "Data Fix", priority_score := .num 6,
    status := "Intake", assigned_to := none,
    estimated_time_savings := none,
    created_at := "2026-03-02 09:00:00", updated_at := "2026-03-02 09:00:00" }

-- ═════════════════════════════════ Theorems ═════════════════════════════════

/-- C1 — Mock fallback determinism: with no API credential configured
(no explicit token argument, no token environment variable), each of the
four task operations returns exactly its task's fixed mock payload tagged
`_source = "mock"`, with a non-negative `_latency_ms` field, for every
network oracle and all inputs. -/
theorem mock_fallback_determinism :
    ∀ (net : LLMNet) (lat₁ lat₂ lat₃ lat₄ : Nat)
      (p w m u t pp ctx ti pr rq pn me : String),
      triage_request (agentToken none none) net lat₁ p w m u t =
        .ok (.obj (MOCK_TRIAGE_RESPONSE ++
          [("_source", .str "mock"), ("_latency_ms", .num lat₁)])) ∧
      generate_requirements (agentToken none none) net lat₂ pp ctx =
        .ok (.obj (MOCK_REQUIREMENTS_RESPONSE ++
          [("_source", .str "mock"), ("_latency_ms", .num lat₂)])) ∧
      generate_blueprint (agentToken none none) net lat₃ ti pr rq =
        .ok (.obj (MOCK_BLUEPRINT_RESPONSE ++
          [("_source", .str "mock"), ("_latency_ms", .num lat₃)])) ∧
      generate_executive_summary (agentToken none none) net lat₄ pn me =
        .obj [("summary", .str (mockSummaryText pn)),
              ("_source", .str "mock"), ("_latency_ms", .num lat₄)] ∧
      0 ≤ (lat₁ : Int) ∧ 0 ≤ (lat₂ : Int) ∧ 0 ≤ (lat₃ : Int) ∧ 0 ≤ (lat₄ : Int) := by
  intro net lat₁ lat₂ lat₃ lat₄ p w m u t pp ctx ti pr rq pn me
  exact ⟨rfl, rfl, rfl, rfl, Int.ofNat_nonneg _, Int.ofNat_nonneg _,
    Int.ofNat_nonneg _, Int.ofNat_nonneg _⟩

/-- C2 (code bug) — The claim says the four task operations never
raise; but when the LLM answers with text that parses as a truthy
non-object JSON value (here the array `[1, 2, 3]`), `triage_request`
executes `result["_source"] = "llm"` on a non-dict and raises
`TypeError`.  This theorem evaluates the embedded code at that failing
input. -/
theorem triage_raises_on_json_array :
    triage_request (some "hf-token") netArrayReply 7 "pain" "stage" "5 hours/week"
      "High" "RevOps" = .error .typeError := by
  rfl

/-- C3 — JSON-extraction behaviour of `_parse_json`: absent (or
empty, i.e. falsy) input yields no result; otherwise the text is
stripped, fence-marker lines are removed and a direct parse is tried;
if that fails, the first-`{`-to-last-`}` substring is parsed; if both
attempts fail the result is absent — the function is total, never an
exception.  Includes the three concrete instances of the claim: a fenced
code block containing an object, noise around an object, and unparseable
text. -/
theorem json_extraction_robustness :
    (_parse_json none = none) ∧
    (_parse_json (some "") = none) ∧
    (∀ (t : String) (v : Json), t.toList.isEmpty = false →
      json_loads_list (stripFences (pyStripChars t.toList)) = some v →
      _parse_json (some t) = some v) ∧
    (∀ (t : String) (v : Json), t.toList.isEmpty = false →
      json_loads_list (stripFences (pyStripChars t.toList)) = none →
      braceExtract (stripFences (pyStripChars t.toList)) = some v →
      _parse_json (some t) = some v) ∧
    (∀ t : String,
      json_loads_list (stripFences (pyStripChars t.toList)) = none →
      braceExtract (stripFences (pyStripChars t.toList)) = none →
      _parse_json (some t) = none) ∧
    (_parse_json (some ("\x60\x60\x60json\n\x7b\x22a\x22: 1\x7d\n\x60\x60\x60")) =
      some (.obj [("a", .num 1)])) ∧
    (_parse_json (some "noise \x7b\x22a\x22:1\x7d trailing") =
      some (.obj [("a", .num 1)])) ∧
    (_parse_json (some "this is not json at all") = none) := by
  refine ⟨rfl, rfl, ?_, ?_, ?_, rfl, rfl, rfl⟩
  · intro t v h₁ h₂
    simp only [_parse_json, h₁, Bool.false_eq_true, if_false, h₂]
  · intro t v h₁ h₂ h₃
    simp only [_parse_json, h₁, Bool.false_eq_true, if_false, h₂, h₃]
  · intro t h₂ h₃
    by_cases h₁ : t.toList.isEmpty
    · simp only [_parse_json, h₁, if_true]
    · simp only [_parse_json, Bool.not_eq_true] at h₁ ⊢
      simp only [h₁, Bool.false_eq_true, if_false, h₂, h₃]

/-- Witness for C3: the brace-extraction branch applied at the concrete
noisy input, all hypotheses discharged by evaluation. -/
theorem json_extraction_robustness_witness :
    _parse_json (some "garbage \x7b\x22ok\x22: true\x7d end") =
      some (.obj [("ok", .bool true)]) :=
  json_extraction_robustness.2.2.2.1 "garbage \x7b\x22ok\x22: true\x7d end"
    (.obj [("ok", .bool true)]) rfl rfl rfl

/-- C4 — Triage round-trip: for every form submission whose triage
result carries a summary, the handler appends exactly one intake-request
row storing `manual_time_hours` and `urgency` verbatim with status
`Intake`, and exactly one backlog-item row referencing the new request id
whose title is the triage summary, with status `Intake`. -/
theorem triage_round_trip :
    ∀ (db : WebDb) (req_id blg_id now : String)
      (triage requirements : List (String × Json))
      (rn rt pp ws : String) (mt : Rat) (urg : String) (s : Json),
      jlookup triage "summary" = some s →
      (intake_submit db req_id blg_id now triage requirements rn rt pp ws mt urg).intake_requests
        = db.intake_requests ++
            [newIntakeRow req_id now triage requirements rn rt pp ws mt urg] ∧
      (intake_submit db req_id blg_id now triage requirements rn rt pp ws mt urg).backlog_items
        = db.backlog_items ++ [newBacklogRow blg_id req_id now triage rn rt pp] ∧
      (newIntakeRow req_id now triage requirements rn rt pp ws mt urg).manual_time_hours = mt ∧
      (newIntakeRow req_id now triage requirements rn rt pp ws mt urg).urgency = urg ∧
      (newIntakeRow req_id now triage requirements rn rt pp ws mt urg).status = "Intake" ∧
      (newIntakeRow req_id now triage requirements rn rt pp ws mt urg).id = req_id ∧
      (newBacklogRow blg_id req_id now triage rn rt pp).request_id = req_id ∧
      (newBacklogRow blg_id req_id now triage rn rt pp).title = s ∧
      (newIntakeRow req_id now triage requirements rn rt pp ws mt urg).triage_summary = s ∧
      (newBacklogRow blg_id req_id now triage rn rt pp).status = "Intake" := by
  intro db req_id blg_id now triage requirements rn rt pp ws mt urg s h
  refine ⟨rfl, rfl, rfl, rfl, rfl, rfl, rfl, ?_, ?_, rfl⟩
  · simp [newBacklogRow, jgetD, h]
  · simp [newIntakeRow, jgetD, h]

/-- Witness for C4: a submission with manual time 15 hours and urgency
"High" against the mock triage payload (whose summary field is present),
with every hypothesis discharged by evaluation. -/
theorem triage_round_trip_witness :
    (intake_submit ⟨[], []⟩ "REQ-AB12CD" "BLG-EF34GH" "2026-03-01 10:00:00"
        MOCK_TRIAGE_RESPONSE MOCK_REQUIREMENTS_RESPONSE
        "Sam Field" "RevOps" "Weekly reporting is manual" "Reporting" 15 "High").intake_requests
      = [newIntakeRow "REQ-AB12CD" "2026-03-01 10:00:00" MOCK_TRIAGE_RESPONSE
          MOCK_REQUIREMENTS_RESPONSE "Sam Field" "RevOps"
          "Weekly reporting is manual" "Reporting" 15 "High"] ∧
    (intake_submit ⟨[], []⟩ "REQ-AB12CD" "BLG-EF34GH" "2026-03-01 10:00:00"
        MOCK_TRIAGE_RESPONSE MOCK_REQUIREMENTS_RESPONSE
        "Sam Field" "RevOps" "Weekly reporting is manual" "Reporting" 15 "High").backlog_items
      = [newBacklogRow "BLG-EF34GH" "REQ-AB12CD" "2026-03-01 10:00:00"
          MOCK_TRIAGE_RESPONSE "Sam Field" "RevOps" "Weekly reporting is manual"] ∧
    (newIntakeRow "REQ-AB12CD" "2026-03-01 10:00:00" MOCK_TRIAGE_RESPONSE
        MOCK_REQUIREMENTS_RESPONSE "Sam Field" "RevOps"
        "Weekly reporting is manual" "Reporting" 15 "High").manual_time_hours = 15 ∧
    (newIntakeRow "REQ-AB12CD" "2026-03-01 10:00:00" MOCK_TRIAGE_RESPONSE
        MOCK_REQUIREMENTS_RESPONSE "Sam Field" "RevOps"
        "Weekly reporting is manual" "Reporting" 15 "High").urgency = "High" ∧
    (newIntakeRow "REQ-AB12CD" "2026-03-01 10:00:00" MOCK_TRIAGE_RESPONSE
        MOCK_REQUIREMENTS_RESPONSE "Sam Field" "RevOps"
        "Weekly reporting is manual" "Reporting" 15 "High").status = "Intake" ∧
    (newIntakeRow "REQ-AB12CD" "2026-03-01 10:00:00" MOCK_TRIAGE_RESPONSE
        MOCK_REQUIREMENTS_RESPONSE "Sam Field" "RevOps"
        "Weekly reporting is manual" "Reporting" 15 "High").id = "REQ-AB12CD" ∧
    (newBacklogRow "BLG-EF34GH" "REQ-AB12CD" "2026-03-01 10:00:00"
        MOCK_TRIAGE_RESPONSE "Sam Field" "RevOps"
        "Weekly reporting is manual").request_id = "REQ-AB12CD" ∧
    (newBacklogRow "BLG-EF34GH" "REQ-AB12CD" "2026-03-01 10:00:00"
        MOCK_TRIAGE_RESPONSE "Sam Field" "RevOps" "Weekly reporting is manual").title
      = .str "Automate lead research to reduce SDR time spent per prospect" ∧
    (newIntakeRow "REQ-AB12CD" "2026-03-01 10:00:00" MOCK_TRIAGE_RESPONSE
        MOCK_REQUIREMENTS_RESPONSE "Sam Field" "RevOps"
        "Weekly reporting is manual" "Reporting" 15 "High").triage_summary
      = .str "Automate lead research to reduce SDR time spent per prospect" ∧
    (newBacklogRow "BLG-EF34GH" "REQ-AB12CD" "2026-03-01 10:00:00"
        MOCK_TRIAGE_RESPONSE "Sam Field" "RevOps"
        "Weekly reporting is manual").status = "Intake" :=
  triage_round_trip ⟨[], []⟩ "REQ-AB12CD" "BLG-EF34GH" "2026-03-01 10:00:00"
    MOCK_TRIAGE_RESPONSE MOCK_REQUIREMENTS_RESPONSE "Sam Field" "RevOps"
    "Weekly reporting is manual" "Reporting" 15 "High"
    (.str "Automate lead research to reduce SDR time spent per prospect") rfl

/-- C6 — Seed idempotence: initializing an absent database yields
exactly the seed row counts (8 intake requests, 8 backlog items,
4 impact metrics, 4 prompt versions, 12 audit-log entries, 10 QA
checks); initializing again changes nothing; and whenever
`intake_requests` already holds at least one row, seeding is a no-op. -/
theorem seed_idempotence :
    ((initialize_database none).intake_requests.length = 8 ∧
     (initialize_database none).backlog_items.length = 8 ∧
     (initialize_database none).impact_metrics.length = 4 ∧
     (initialize_database none).prompt_versions.length = 4 ∧
     (initialize_database none).audit_log.length = 12 ∧
     (initialize_database none).qa_checks.length = 10) ∧
    initialize_database (some (initialize_database none)) = initialize_database none ∧
    (∀ db : SeedDatabase, db.intake_requests ≠ [] → seed_data db = db) := by
  refine ⟨⟨rfl, rfl, rfl, rfl, rfl, rfl⟩, rfl, ?_⟩
  intro db h
  have hlen : 0 < db.intake_requests.length := List.length_pos.mpr h
  simp [seed_data, hlen]

/-- Witness for C6: seeding a just-initialized (hence non-empty) database
is a no-op. -/
theorem seed_idempotence_witness :
    seed_data (initialize_database none) = initialize_database none :=
  seed_idempotence.2.2 (initialize_database none) (fun h => List.noConfusion h)

/-- C10 — The status-update endpoint performs no existence or
vocabulary validation: for every item id and every status string the
fault-free path returns `{success: true}`; if no row has the id the
table is unchanged; a matching row gets the new status stored verbatim,
whatever the string is. -/
theorem status_update_unchecked :
    ∀ (db : List BacklogRow) (item_id new_status now : String),
      (backlog_update db item_id new_status now).2 =
        .obj [("success", .bool true)] ∧
      ((∀ it ∈ db, it.id ≠ item_id) →
        (backlog_update db item_id new_status now).1 = db) ∧
      (∀ it ∈ db, it.id = item_id →
        { it with status := new_status, updated_at := now } ∈
          (backlog_update db item_id new_status now).1) ∧
      (∀ it ∈ (backlog_update db item_id new_status now).1,
        it.id = item_id → it.status = new_status) := by
  intro db item_id new_status now
  refine ⟨rfl, ?_, ?_, ?_⟩
  · intro h
    show db.map _ = db
    induction db with
    | nil => rfl
    | cons x xs ih =>
      have hx : x.id ≠ item_id := h x (List.mem_cons_self _ _)
      simp only [List.map_cons, if_neg hx]
      rw [ih (fun it hit => h it (List.mem_cons_of_mem _ hit))]
  · intro it hit hid
    simp only [backlog_update]
    exact List.mem_map.mpr ⟨it, hit, by rw [if_pos hid]⟩
  · intro it hit hid
    simp only [backlog_update] at hit
    obtain ⟨orig, ho, rfl⟩ := List.mem_map.mp hit
    by_cases h : orig.id = item_id
    · simp only [if_pos h]
    · rw [if_neg h] at hid ⊢
      exact absurd hid h

/-- Witness for C10: updating a missing id with an out-of-vocabulary
status still answers `{success: true}` and leaves the table unchanged. -/
theorem status_update_unchecked_witness :
    (backlog_update [intakeRowFixture] "BLG-MISSING" "Archived" "2026-03-05 12:00:00").2 =
      .obj [("success", .bool true)] ∧
    (backlog_update [intakeRowFixture] "BLG-MISSING" "Archived" "2026-03-05 12:00:00").1 =
      [intakeRowFixture] :=
  ⟨(status_update_unchecked [intakeRowFixture] "BLG-MISSING" "Archived"
      "2026-03-05 12:00:00").1,
   (status_update_unchecked [intakeRowFixture] "BLG-MISSING" "Archived"
      "2026-03-05 12:00:00").2.1 (by decide)⟩

/-- One grouping step, seen through the `intake` column. -/
theorem kanbanStep_intake (acc : KanbanCols) (x : BacklogRow) :
    (kanbanStep acc x).intake =
      if x.status = "Intake" then acc.intake ++ [x] else acc.intake := by
  simp only [kanbanStep]; split_ifs <;> simp_all

/-- One grouping step, seen through the `scoping` column. -/
theorem kanbanStep_scoping (acc : KanbanCols) (x : BacklogRow) :
    (kanbanStep acc x).scoping =
      if x.status = "Scoping" then acc.scoping ++ [x] else acc.scoping := by
  simp only [kanbanStep]; split_ifs <;> simp_all

/-- One grouping step, seen through the `inBuild` column. -/
theorem kanbanStep_inBuild (acc : KanbanCols) (x : BacklogRow) :
    (kanbanStep acc x).inBuild =
      if x.status = "In Build" then acc.inBuild ++ [x] else acc.inBuild := by
  simp only [kanbanStep]; split_ifs <;> simp_all

/-- One grouping step, seen through the `qa` column. -/
theorem kanbanStep_qa (acc : KanbanCols) (x : BacklogRow) :
    (kanbanStep acc x).qa =
      if x.status = "QA" then acc.qa ++ [x] else acc.qa := by
  simp only [kanbanStep]; split_ifs <;> simp_all

/-- One grouping step, seen through the `deployed` column. -/
theorem kanbanStep_deployed (acc : KanbanCols) (x : BacklogRow) :
    (kanbanStep acc x).deployed =
      if x.status = "Deployed" then acc.deployed ++ [x] else acc.deployed := by
  simp only [kanbanStep]; split_ifs <;> simp_all

/-- One grouping step, seen through the `measuring` column. -/
theorem kanbanStep_measuring (acc : KanbanCols) (x : BacklogRow) :
    (kanbanStep acc x).measuring =
      if x.status = "Measuring" then acc.measuring ++ [x] else acc.measuring := by
  simp only [kanbanStep]; split_ifs <;> simp_all

/-- The grouping loop fills the `intake` column with exactly the items
whose status is `Intake`, in order. -/
theorem foldl_kanban_intake (items : List BacklogRow) :
    ∀ acc : KanbanCols, (items.foldl kanbanStep acc).intake =
      acc.intake ++ items.filter (fun it => it.status == "Intake") := by
  induction items with
  | nil => intro acc; simp
  | cons x xs ih =>
    intro acc
    simp only [List.foldl_cons, List.filter_cons]
    rw [ih, kanbanStep_intake]
    by_cases h : x.status = "Intake"
    · simp [h]
    · simp [h]

/-- The grouping loop fills the `scoping` column with exactly the items
whose status is `Scoping`. -/
theorem foldl_kanban_scoping (items : List BacklogRow) :
    ∀ acc : KanbanCols, (items.foldl kanbanStep acc).scoping =
      acc.scoping ++ items.filter (fun it => it.status == "Scoping") := by
  induction items with
  | nil => intro acc; simp
  | cons x xs ih =>
    intro acc
    simp only [List.foldl_cons, List.filter_cons]
    rw [ih, kanbanStep_scoping]
    by_cases h : x.status = "Scoping"
    · simp [h]
    · simp [h]

/-- The grouping loop fills the `inBuild` column with exactly the items
whose status is `In Build`. -/
theorem foldl_kanban_inBuild (items : List BacklogRow) :
    ∀ acc : KanbanCols, (items.foldl kanbanStep acc).inBuild =
      acc.inBuild ++ items.filter (fun it => it.status == "In Build") := by
  induction items with
  | nil => intro acc; simp
  | cons x xs ih =>
    intro acc
    simp only [List.foldl_cons, List.filter_cons]
    rw [ih, kanbanStep_inBuild]
    by_cases h : x.status = "In Build"
    · simp [h]
    · simp [h]

/-- The grouping loop fills the `qa` column with exactly the items whose
status is `QA`. -/
theorem foldl_kanban_qa (items : List BacklogRow) :
    ∀ acc : KanbanCols, (items.foldl kanbanStep acc).qa =
      acc.qa ++ items.filter (fun it => it.status == "QA") := by
  induction items with
  | nil => intro acc; simp
  | cons x xs ih =>
    intro acc
    simp only [List.foldl_cons, List.filter_cons]
    rw [ih, kanbanStep_qa]
    by_cases h : x.status = "QA"
    · simp [h]
    · simp [h]

/-- The grouping loop fills the `deployed` column with exactly the items
whose status is `Deployed`. -/
theorem foldl_kanban_deployed (items : List BacklogRow) :
    ∀ acc : KanbanCols, (items.foldl kanbanStep acc).deployed =
      acc.deployed ++ items.filter (fun it => it.status == "Deployed") := by
  induction items with
  | nil => intro acc; simp
  | cons x xs ih =>
    intro acc
    simp only [List.foldl_cons, List.filter_cons]
    rw [ih, kanbanStep_deployed]
    by_cases h : x.status = "Deployed"
    · simp [h]
    · simp [h]

/-- The grouping loop fills the `measuring` column with exactly the items
whose status is `Measuring`. -/
theorem foldl_kanban_measuring (items : List BacklogRow) :
    ∀ acc : KanbanCols, (items.foldl kanbanStep acc).measuring =
      acc.measuring ++ items.filter (fun it => it.status == "Measuring") := by
  induction items with
  | nil => intro acc; simp
  | cons x xs ih =>
    intro acc
    simp only [List.foldl_cons, List.filter_cons]
    rw [ih, kanbanStep_measuring]
    by_cases h : x.status = "Measuring"
    · simp [h]
    · simp [h]

/-- Each of the six board columns is exactly the filter of the queried
items at that status label. -/
theorem buildColumns_colGet (items : List BacklogRow) (l : String)
    (hl : l ∈ kanbanLabels) :
    colGet (buildColumns items) l = items.filter (fun it => it.status == l) := by
  simp only [kanbanLabels, List.mem_cons, List.not_mem_nil, or_false] at hl
  rcases hl with rfl | rfl | rfl | rfl | rfl | rfl
  · show (items.foldl kanbanStep kanbanEmpty).intake = _
    rw [foldl_kanban_intake]; rfl
  · show (items.foldl kanbanStep kanbanEmpty).scoping = _
    rw [foldl_kanban_scoping]; rfl
  · show (items.foldl kanbanStep kanbanEmpty).inBuild = _
    rw [foldl_kanban_inBuild]; rfl
  · show (items.foldl kanbanStep kanbanEmpty).qa = _
    rw [foldl_kanban_qa]; rfl
  · show (items.foldl kanbanStep kanbanEmpty).deployed = _
    rw [foldl_kanban_deployed]; rfl
  · show (items.foldl kanbanStep kanbanEmpty).measuring = _
    rw [foldl_kanban_measuring]; rfl

/-- C5 (counterexample) — The claim fails as stated: a backlog item
with a status outside the six labels (reachable via the unvalidated
status-update endpoint) is returned by the board query yet appears in
none of the six columns, so the union of the columns is not the filtered
item set. -/
theorem kanban_partition_counterexample :
    archivedRow ∈ boardItems [archivedRow] "" "" ∧
    ¬ inSomeColumn (buildColumns (boardItems [archivedRow] "" "")) archivedRow := by
  constructor
  · show archivedRow ∈ List.filter _ [archivedRow]
    simp [matchesFilter]
  · intro h
    rcases h with h | h | h | h | h | h <;>
      simp [buildColumns, boardItems, matchesFilter, archivedRow, kanbanStep,
        kanbanEmpty] at h

/-- C5 (amended) — For every database state and filter combination,
every returned item *whose status is one of the six labels* appears in
exactly one column (the one matching its status), and an item lies in
some column exactly when it is a returned item with an in-vocabulary
status. -/
theorem kanban_partition_amended :
    ∀ (db : List BacklogRow) (team status : String),
      (∀ it ∈ boardItems db team status, it.status ∈ kanbanLabels →
        it ∈ colGet (buildColumns (boardItems db team status)) it.status ∧
        ∀ l ∈ kanbanLabels, l ≠ it.status →
          it ∉ colGet (buildColumns (boardItems db team status)) l) ∧
      (∀ it : BacklogRow,
        (∃ l ∈ kanbanLabels,
          it ∈ colGet (buildColumns (boardItems db team status)) l) ↔
        (it ∈ boardItems db team status ∧ it.status ∈ kanbanLabels)) := by
  intro db team status
  constructor
  · intro it hit hlab
    constructor
    · rw [buildColumns_colGet _ _ hlab]
      exact List.mem_filter.mpr ⟨hit, by simp⟩
    · intro l hl hne hmem
      rw [buildColumns_colGet _ _ hl] at hmem
      have heq : it.status = l := by simpa using (List.mem_filter.mp hmem).2
      exact hne heq.symm
  · intro it
    constructor
    · rintro ⟨l, hl, hmem⟩
      rw [buildColumns_colGet _ _ hl] at hmem
      obtain ⟨hin, heq⟩ := List.mem_filter.mp hmem
      have : it.status = l := by simpa using heq
      exact ⟨hin, this ▸ hl⟩
    · rintro ⟨hin, hlab⟩
      refine ⟨it.status, hlab, ?_⟩
      rw [buildColumns_colGet _ _ hlab]
      exact List.mem_filter.mpr ⟨hin, by simp⟩

/-- Witness for the amended C5: a concrete `Intake` item lands in the
`Intake` column of the unfiltered board. -/
theorem kanban_partition_amended_witness :
    intakeRowFixture ∈ (buildColumns (boardItems [intakeRowFixture] "" "")).intake :=
  ((kanban_partition_amended [intakeRowFixture] "" "").1 intakeRowFixture
    (by simp [boardItems, matchesFilter]) (by simp [kanbanLabels, intakeRowFixture])).1

/-- C7 (counterexample) — The claim fails as stated: with the project id
and API key configured but the agent id absent, `chat_with_agent` does
not short-circuit — it issues the trigger network call (here answered
200 with no job descriptor) and returns status "success", because its
guard checks only the project id and the API key. -/
theorem chat_missing_agent_id_calls_network :
    (chat_with_agent cfgNoAgentId trigNoJob pollsEmpty "agent-override" "hello").triggerCalls = 1 ∧
    (chat_with_agent cfgNoAgentId trigNoJob pollsEmpty "agent-override" "hello").result =
      .obj [("status", .str "success"), ("response", .obj [("ok", .bool true)])] :=
  ⟨rfl, rfl⟩

/-- C7 (amended) — Missing-credentials short-circuit as the code
implements it: `trigger_research` returns status "error" with no network
call when any of project id / API key / agent id is missing (empty
counts as missing, by Python truthiness); `chat_with_agent`
short-circuits only when the project id or the API key is missing — its
agent id is a per-call argument and the configured one is not
consulted. -/
theorem missing_credentials_short_circuit :
    (∀ (cfg : RelConfig) (net : TriggerResp) (cn ctx : String),
      (optTruthy cfg.project_id && optTruthy cfg.api_key && optTruthy cfg.agent_id) = false →
      trigger_research cfg net cn ctx =
        ⟨relError "Relevance AI credentials missing", 0, 0⟩) ∧
    (∀ (cfg : RelConfig) (trig : TriggerResp) (polls : Nat → PollResp) (aid msg : String),
      (optTruthy cfg.project_id && optTruthy cfg.api_key) = false →
      chat_with_agent cfg trig polls aid msg =
        ⟨relError "Relevance AI credentials missing", 0, 0⟩) := by
  constructor
  · intro cfg net cn ctx h
    simp [trigger_research, h]
  · intro cfg trig polls aid msg h
    simp [chat_with_agent, h]

/-- Witness for the amended C7: a missing project id stops
`trigger_research`, a missing API key stops `chat_with_agent` — no
network call in either case. -/
theorem missing_credentials_short_circuit_witness :
    trigger_research ⟨none, some "key-1", some "agent-1", "us-east-1"⟩ trigNoJob
      "Acme Corp" "" = ⟨relError "Relevance AI credentials missing", 0, 0⟩ ∧
    chat_with_agent ⟨some "proj-1", none, some "agent-1", "us-east-1"⟩ trigNoJob
      pollsEmpty "agent-1" "hello" =
      ⟨relError "Relevance AI credentials missing", 0, 0⟩ :=
  ⟨missing_credentials_short_circuit.1 _ trigNoJob "Acme Corp" "" rfl,
   missing_credentials_short_circuit.2 _ trigNoJob pollsEmpty "agent-1" "hello" rfl⟩

/-- The poll loop issues at most as many poll requests as it has fuel. -/
theorem runPolls_calls_le (net : Nat → PollResp) :
    ∀ (fuel idx : Nat), (runPolls net idx fuel).2 ≤ fuel := by
  intro fuel
  induction fuel with
  | zero => intro idx; simp [runPolls]
  | succ n ih =>
    intro idx
    simp only [runPolls]
    cases net idx with
    | exn m => simp
    | resp st bt us =>
      by_cases h : st == 200
      · simp only [h, if_true]
        cases hscan : scanUpdates us with
        | some r => simp
        | none =>
          by_cases hf : hasChainFailed us
          · simp [hf]
          · simp only [hf, Bool.false_eq_true, if_false]
            exact Nat.succ_le_succ (ih (idx + 1))
      · simp only [h, Bool.false_eq_true, if_false]
        exact Nat.succ_le_succ (ih (idx + 1))

/-- If every poll answers without a recognised terminal update and
without a chain-failed update, the loop burns all its fuel and returns
the timeout error. -/
theorem runPolls_timeout (net : Nat → PollResp)
    (H : ∀ j : Nat, ∃ st bt us, net j = PollResp.resp st bt us ∧
      scanUpdates us = none ∧ hasChainFailed us = false) :
    ∀ (fuel idx : Nat),
      runPolls net idx fuel =
        (relError "Timed out waiting for agent response.", fuel) := by
  intro fuel
  induction fuel with
  | zero => intro idx; rfl
  | succ n ih =>
    intro idx
    obtain ⟨st, bt, us, hn, hs, hf⟩ := H idx
    simp only [runPolls, hn]
    by_cases h : st == 200
    · simp only [h, if_true, hs, hf, Bool.false_eq_true, if_false]
      rw [ih (idx + 1)]
    · simp only [h, Bool.false_eq_true, if_false]
      rw [ih (idx + 1)]

/-- C8 — Poll termination: `chat_with_agent` never issues more than 30
poll requests, for any configuration and any oracle; and when no poll
yields a chain-success / agent-step update carrying a recognised answer
field and none reports chain-failed, the operation performs exactly the
30 bounded attempts and returns status "error" with the timeout
message. -/
theorem poll_termination :
    (∀ (cfg : RelConfig) (trig : TriggerResp) (polls : Nat → PollResp)
       (aid msg : String),
      (chat_with_agent cfg trig polls aid msg).pollCalls ≤ 30) ∧
    (∀ (cfg : RelConfig) (polls : Nat → PollResp) (aid msg btext : String)
       (conv : Option Json) (job studio : String) (rawBody : Json),
      optTruthy cfg.project_id = true → optTruthy cfg.api_key = true →
      job ≠ "" → studio ≠ "" →
      (∀ j : Nat, ∃ st bt us, polls j = PollResp.resp st bt us ∧
        scanUpdates us = none ∧ hasChainFailed us = false) →
      chat_with_agent cfg (.resp 200 btext conv (some job) (some studio) rawBody)
        polls aid msg =
        ⟨relError "Timed out waiting for agent response.", 1, 30⟩) := by
  constructor
  · intro cfg trig polls aid msg
    simp only [chat_with_agent]
    by_cases hc : optTruthy cfg.project_id && optTruthy cfg.api_key
    · simp only [hc, Bool.not_true, Bool.false_eq_true, if_false]
      cases trig with
      | exn m => simp
      | resp st bt conv job studio rawBody =>
        by_cases h200 : st == 200
        · simp only [h200, if_true]
          by_cases hjob : optTruthy job && optTruthy studio
          · simp only [hjob, if_true]
            exact runPolls_calls_le polls 30 0
          · simp [hjob]
        · simp [h200]
    · simp [hc]
  · intro cfg polls aid msg btext conv job studio rawBody hp hk hj hs H
    have hj' : optTruthy (some job) = true := by
      simp [optTruthy, hj]
    have hs' : optTruthy (some studio) = true := by
      simp [optTruthy, hs]
    simp only [chat_with_agent, hp, hk, Bool.and_self, Bool.not_true,
      Bool.false_eq_true, if_false, hj', hs']
    rw [runPolls_timeout polls H 30 0]
    simp

/-- Witness for C8: a concrete always-empty poll oracle times out after
exactly 30 polls, with the hypotheses discharged by evaluation. -/
theorem poll_termination_witness :
    chat_with_agent cfgFull trigWithJob pollsEmpty "agent-1" "hi" =
      ⟨relError "Timed out waiting for agent response.", 1, 30⟩ :=
  poll_termination.2 cfgFull pollsEmpty "agent-1" "hi" "" none "job-9" "studio-3"
    .null rfl rfl (by decide) (by decide)
    (fun _ => ⟨200, "", [], rfl, rfl, rfl⟩)

/-- When scanning most-recent-first, if the first update of terminal
type carries a recognised answer field, the scan returns exactly that
value as a success. -/
theorem scanBack_found :
    ∀ (l : List PollUpdate) (u : PollUpdate) (v : Json),
      l.find? isTerminalType = some u → extractAnswer u.output = some v →
      scanBack l = some (relSuccess v) := by
  intro l
  induction l with
  | nil => intro u v h _; simp at h
  | cons x xs ih =>
    intro u v hf he
    by_cases hx : isTerminalType x
    · rw [List.find?_cons_of_pos _ hx] at hf
      injection hf with hf
      subst hf
      simp [scanBack, hx, he]
    · rw [List.find?_cons_of_neg _ hx] at hf
      simp [scanBack, hx, ih _ _ hf he]

/-- A poll loop whose first poll answers 200 with an update list the
scan resolves returns that result after exactly one poll. -/
theorem runPolls_first_scan (net : Nat → PollResp) (idx fuel : Nat)
    (pbtext : String) (updates : List PollUpdate) (res : Json)
    (h : net idx = PollResp.resp 200 pbtext updates)
    (hs : scanUpdates updates = some res) :
    runPolls net idx (fuel + 1) = (res, 1) := by
  simp only [runPolls, h, hs]
  simp

/-- With credentials present, a 200 trigger carrying a job descriptor,
and a first poll whose update scan resolves, `chat_with_agent` returns
the scan's result after one trigger and one poll. -/
theorem chat_result_of_first_poll_scan :
    ∀ (cfg : RelConfig) (polls : Nat → PollResp) (aid msg btext pbtext : String)
      (conv : Option Json) (job studio : String) (rawBody : Json)
      (updates : List PollUpdate) (res : Json),
      optTruthy cfg.project_id = true → optTruthy cfg.api_key = true →
      job ≠ "" → studio ≠ "" →
      polls 0 = PollResp.resp 200 pbtext updates →
      scanUpdates updates = some res →
      chat_with_agent cfg (.resp 200 btext conv (some job) (some studio) rawBody)
        polls aid msg = ⟨res, 1, 1⟩ := by
  intro cfg polls aid msg btext pbtext conv job studio rawBody updates res
    hp hk hj hs hpoll hscan
  have hj' : optTruthy (some job) = true := by simp [optTruthy, hj]
  have hs' : optTruthy (some studio) = true := by simp [optTruthy, hs]
  simp only [chat_with_agent, hp, hk, Bool.and_self, Bool.not_true,
    Bool.false_eq_true, if_false, hj', hs']
  have h30 : runPolls polls 0 30 = (res, 1) :=
    runPolls_first_scan polls 0 29 pbtext updates res hpoll hscan
  rw [h30]
  simp

/-- C9 — Answer extraction: on a successful poll, the update list is
scanned from most recent to oldest for a chain-success / agent-step
update; when the first such update's output carries `answer` (else
`text`, else a nested `output.answer`), the operation returns status
"success" with that value as the response output. -/
theorem poll_answer_extraction :
    ∀ (cfg : RelConfig) (polls : Nat → PollResp) (aid msg btext pbtext : String)
      (conv : Option Json) (job studio : String) (rawBody : Json)
      (updates : List PollUpdate) (u : PollUpdate) (v : Json),
      optTruthy cfg.project_id = true → optTruthy cfg.api_key = true →
      job ≠ "" → studio ≠ "" →
      polls 0 = PollResp.resp 200 pbtext updates →
      updates.reverse.find? isTerminalType = some u →
      ((jlookup u.output "answer" = some v →
        chat_with_agent cfg (.resp 200 btext conv (some job) (some studio) rawBody)
          polls aid msg = ⟨relSuccess v, 1, 1⟩) ∧
       (jlookup u.output "answer" = none → jlookup u.output "text" = some v →
        chat_with_agent cfg (.resp 200 btext conv (some job) (some studio) rawBody)
          polls aid msg = ⟨relSuccess v, 1, 1⟩) ∧
       (jlookup u.output "answer" = none → jlookup u.output "text" = none →
        nestedAnswer u.output = some v →
        chat_with_agent cfg (.resp 200 btext conv (some job) (some studio) rawBody)
          polls aid msg = ⟨relSuccess v, 1, 1⟩)) := by
  intro cfg polls aid msg btext pbtext conv job studio rawBody updates u v
    hp hk hj hs hpoll hfind
  refine ⟨?_, ?_, ?_⟩
  · intro ha
    refine chat_result_of_first_poll_scan cfg polls aid msg btext pbtext conv
      job studio rawBody updates _ hp hk hj hs hpoll ?_
    exact scanBack_found _ _ _ hfind (by simp [extractAnswer, ha])
  · intro ha ht
    refine chat_result_of_first_poll_scan cfg polls aid msg btext pbtext conv
      job studio rawBody updates _ hp hk hj hs hpoll ?_
    exact scanBack_found _ _ _ hfind (by simp [extractAnswer, ha, ht])
  · intro ha ht hn
    refine chat_result_of_first_poll_scan cfg polls aid msg btext pbtext conv
      job studio rawBody updates _ hp hk hj hs hpoll ?_
    exact scanBack_found _ _ _ hfind (by simp [extractAnswer, ha, ht, hn])

/-- Witness for C9: a first poll whose single agent-step update carries
an `answer` field yields that answer as the success output. -/
theorem poll_answer_extraction_witness :
    chat_with_agent cfgFull trigWithJob pollsAnswered "agent-1" "question" =
      ⟨relSuccess (.str "42 leads enriched"), 1, 1⟩ :=
  (poll_answer_extraction cfgFull pollsAnswered "agent-1" "question" "" ""
    none "job-9" "studio-3" .null
    [⟨some "agent-step", [("answer", .str "42 leads enriched")]⟩]
    ⟨some "agent-step", [("answer", .str "42 leads enriched")]⟩
    (.str "42 leads enriched")
    rfl rfl (by decide) (by decide) rfl rfl).1 rfl
